import Mathlib

/-!
Verification of the slack-assistant pipeline (ingress signature check,
event normalization, two-agent orchestration, Slack delivery) against its
specification.  The Python sources are shallowly embedded: pure functions
become Lean functions, the external HMAC and JSON-parsing library calls
become function parameters, agent invocations become oracle values, and a
Python exception becomes an `Option`/explicit failure marker.
-/

namespace SlackAssistant

/-! ### Python string primitives

The embedding models Python's `str` methods over `List Char` (the
character list of a `String`), so that every definition evaluates by
kernel reduction. -/

/-- The whitespace characters stripped by Python's `str.strip()`. -/
def py_whitespace (c : Char) : Bool :=
  c == ' ' || c == '\t' || c == '\n' || c == '\r' || c == '\x0b' || c == '\x0c'

/-- Is `pat` a leading part of `s`? -/
def leads_with : List Char → List Char → Bool
  | [], _ => true
  | _ :: _, [] => false
  | p :: ps, c :: cs => p == c && leads_with ps cs

/-- Remove `pat` from the front of `s`, returning the remainder, or `none`
when `pat` is not a leading part of `s`. -/
def strip_lead : List Char → List Char → Option (List Char)
  | [], s => some s
  | _ :: _, [] => none
  | p :: ps, c :: cs => if p == c then strip_lead ps cs else none

/-- Does `pat` occur in `s`?  (Python's `pat in s`.) -/
def chars_contains (pat : List Char) : List Char → Bool
  | [] => pat.isEmpty
  | c :: rest => leads_with pat (c :: rest) || chars_contains pat rest

/-- The part of `s` before the first occurrence of the non-empty separator
`sep`; all of `s` when `sep` does not occur
(Python's `s.split(sep)[0]`). -/
def chars_before (sep : List Char) : List Char → List Char
  | [] => []
  | c :: rest =>
    if leads_with sep (c :: rest) then [] else c :: chars_before sep rest

/-- Remove every (non-overlapping, leftmost-first) occurrence of the
non-empty `pat` from `s` (Python's `s.replace(pat, "")`); `fuel` bounds
the recursion and is instantiated with `s.length`, which suffices since
every step consumes at least one character. -/
def chars_remove (pat : List Char) : Nat → List Char → List Char
  | 0, s => s
  | _ + 1, [] => []
  | fuel + 1, c :: rest =>
    match strip_lead pat (c :: rest) with
    | some rem => chars_remove pat fuel rem
    | none => c :: chars_remove pat fuel rest

/-- Python's `s.strip()` on character lists. -/
def py_strip_chars (cs : List Char) : List Char :=
  ((cs.dropWhile py_whitespace).reverse.dropWhile py_whitespace).reverse

/-- Python's `s.strip()`. -/
def py_strip (s : String) : String := String.mk (py_strip_chars s.data)

/-- Python's `s.startswith(pat)`. -/
def py_startswith (s pat : String) : Bool := leads_with pat.data s.data

/-- Python's `pat in s` on strings. -/
def contains_substring (s pat : String) : Bool :=
  chars_contains pat.data s.data

/-- Python's `s.split(sep)[0]` for a non-empty `sep`. -/
def py_split_head (s sep : String) : String :=
  String.mk (chars_before sep.data s.data)

/-- Python's `s.replace(pat, "")` for a non-empty `pat`. -/
def py_remove_all (s pat : String) : String :=
  String.mk (chars_remove pat.data s.data.length s.data)

/-- Model of Python `int(s)` on strings: strips surrounding whitespace,
allows one leading sign, then requires at least one decimal digit.
Returns `none` where Python raises `ValueError`. -/
def pyInt (s : String) : Option Int :=
  let t := py_strip_chars s.data
  let neg := leads_with ['-'] t
  let core := if leads_with ['-'] t || leads_with ['+'] t then t.tail else t
  if !core.isEmpty && core.all Char.isDigit then
    let n : Nat := core.foldl (fun acc c => 10 * acc + (c.toNat - 48)) 0
    some (if neg then -(n : Int) else (n : Int))
  else
    none

/-- Embedding of `verify_slack_signature` from `src/lambda/ingress/handler.py`.
`hmacHex secret msg` stands for the hex digest of HMAC-SHA256 of `msg` under
`secret` (an external library call, hence a parameter); `now` stands for
`time.time()` at whole-second granularity.  The result is `none` exactly when
the Python code raises (the unguarded `int(timestamp)` on a non-numeric
timestamp), `some b` when it returns `b`. -/
def verify_slack_signature (hmacHex : String → String → String) (now : Int)
    (signing_secret : String) (timestamp : String) (body : String)
    (signature : String) : Option Bool :=
  match pyInt timestamp with
  | none => none
  | some ts =>
    if (now - ts).natAbs > 60 * 5 then
      some false
    else
      let sig_basestring := "v0:" ++ timestamp ++ ":" ++ body
      let computed_signature := "v0=" ++ hmacHex signing_secret sig_basestring
      some (computed_signature == signature)

/-- A raw Slack event dict: only the keys the ingress handler reads.
`none` models an absent key, `some ""` a key present with an empty value. -/
structure SlackEvent where
  type : Option String := none
  subtype : Option String := none
  bot_id : Option String := none
  user : Option String := none
  channel : Option String := none
  text : Option String := none
  ts : Option String := none
  thread_ts : Option String := none
  team : Option String := none
deriving DecidableEq, Repr

/-- Embedding of `is_bot_message`: Python truthiness of `event.get("bot_id")`
is non-`None` and non-empty; `event.get("user") == bot_user_id` compares a
possibly missing key with the bot id. -/
def is_bot_message (event : SlackEvent) (bot_user_id : String) : Bool :=
  if event.bot_id.getD "" != "" then true
  else if event.user == some bot_user_id then true
  else false

/-- Embedding of `is_processable_event`: only plain `message` events with no
(truthy) subtype are processed. -/
def is_processable_event (event : SlackEvent) : Bool :=
  if event.type != some "message" then false
  else if event.subtype.getD "" != "" then false
  else true

/-- Embedding of `detect_channel_kind`. -/
def detect_channel_kind (channel_id : String) : String :=
  if py_startswith channel_id "C" then "public"
  else if py_startswith channel_id "G" then "private"
  else if py_startswith channel_id "D" then "dm"
  else "unknown"

/-- The normalized event record built by `normalize_event`. -/
structure InboundEvent where
  team_id : String
  channel_id : String
  channel_kind : String
  user_id : String
  text : String
  ts : String
  thread_ts : String
  is_mentioned : Bool
  is_dm : Bool
  event_type : String
deriving DecidableEq, Repr

/-- Embedding of `normalize_event` from the ingress handler:
`thread_ts = event.get("thread_ts", ts)` falls back to the event's own
timestamp only when the `thread_ts` key is absent. -/
def normalize_event (event : SlackEvent) (bot_user_id : String) : InboundEvent :=
  let channel_id := event.channel.getD ""
  let text := event.text.getD ""
  let ts := event.ts.getD ""
  let thread_ts := event.thread_ts.getD ts
  let is_mentioned := contains_substring text ("<@" ++ bot_user_id ++ ">")
  let is_dm := py_startswith channel_id "D"
  { team_id := event.team.getD ""
    channel_id := channel_id
    channel_kind := detect_channel_kind channel_id
    user_id := event.user.getD ""
    text := text
    ts := ts
    thread_ts := thread_ts
    is_mentioned := is_mentioned
    is_dm := is_dm
    event_type := "message" }

/-! ### Orchestration (`src/lambda/agentcore-strands/graph.py`) -/

/-- The Router agent's structured response (pydantic `RouterResponse`).
Field defaults follow the pydantic model. -/
structure RouterResponse where
  should_reply : Bool
  route : String
  reply_mode : String := "thread"
  typing_style : String := "none"
  reason : String
deriving DecidableEq, Repr

/-- The Conversation agent's structured response (pydantic
`ConversationResponse`); `route` is the literal `"full_reply"` in every
validated instance, kept as a field with that default. -/
structure ConversationResponse where
  should_reply : Bool := true
  route : String := "full_reply"
  reply_mode : String := "thread"
  typing_style : String := "none"
  reply_text : String
  reason : String := "Full reply generated"
deriving DecidableEq, Repr

/-- Outcome of one agent invocation, used as an oracle for the external
`Agent(...)` call: the call may raise, may return a result whose
`structured_output` is missing or `None`, or may return a validated
structured output. -/
inductive AgentCall (α : Type) where
  | raises (msg : String)
  | noOutput
  | ok (out : α)
deriving DecidableEq, Repr

/-- The dict returned by `run_orchestration`. -/
structure OrchResult where
  should_reply : Bool
  route : String
  reply_mode : String
  typing_style : String
  reply_text : String
  reason : String
deriving DecidableEq, Repr

/-- `run_orchestration`'s result together with which agents were invoked
(for the spec's call-count assertions). -/
structure OrchTrace where
  result : OrchResult
  router_invoked : Bool
  conversation_invoked : Bool
deriving DecidableEq, Repr

/-- The user text extracted by the pre-filter:
`user_message.split("\n\nSlack context:")[0].replace("User message: ", "").strip()`. -/
def extract_text_only (user_message : String) : String :=
  py_strip (py_remove_all (py_split_head user_message "\n\nSlack context:")
    "User message: ")

/-- The pre-filter's mention check: `"is_mentioned: True" in user_message`. -/
def message_is_mentioned (user_message : String) : Bool :=
  contains_substring user_message "is_mentioned: True"

/-- Embedding of `run_orchestration`: pre-filter, Router call, early return
on ignore, Conversation call with fallback to the Router's decision.  The
two agent invocations are oracle parameters; the trace records whether each
was reached. -/
def run_orchestration (routerCall : AgentCall RouterResponse)
    (conversationCall : AgentCall ConversationResponse)
    (user_message : String) : OrchTrace :=
  let default_result : OrchResult :=
    { should_reply := false, route := "ignore", reply_mode := "thread"
      typing_style := "none", reply_text := ""
      reason := "Error during orchestration" }
  let text_only := extract_text_only user_message
  let is_mentioned := message_is_mentioned user_message
  if text_only.length ≤ 3 && !is_mentioned then
    { result :=
        { should_reply := false, route := "ignore", reply_mode := "thread"
          typing_style := "none", reply_text := ""
          reason := "短いメッセージのため自動スキップ" }
      router_invoked := false, conversation_invoked := false }
  else
    match routerCall with
    | .raises msg =>
      { result := { default_result with reason := "Router Agent error: " ++ msg }
        router_invoked := true, conversation_invoked := false }
    | .noOutput =>
      { result :=
          { default_result with
            reason := "Router failed to return structured output" }
        router_invoked := true, conversation_invoked := false }
    | .ok router_output =>
      if !router_output.should_reply || router_output.route == "ignore" then
        { result :=
            { should_reply := router_output.should_reply
              route := router_output.route
              reply_mode := router_output.reply_mode
              typing_style := router_output.typing_style
              reply_text := ""
              reason := router_output.reason }
          router_invoked := true, conversation_invoked := false }
      else
        match conversationCall with
        | .raises msg =>
          { result :=
              { should_reply := router_output.should_reply
                route := router_output.route
                reply_mode := router_output.reply_mode
                typing_style := router_output.typing_style
                reply_text := ""
                reason := "Conversation Agent error: " ++ msg }
            router_invoked := true, conversation_invoked := true }
        | .noOutput =>
          { result :=
              { should_reply := router_output.should_reply
                route := router_output.route
                reply_mode := router_output.reply_mode
                typing_style := router_output.typing_style
                reply_text := ""
                reason := "Conversation failed to return structured output" }
            router_invoked := true, conversation_invoked := true }
        | .ok conversation_output =>
          { result :=
              { should_reply := conversation_output.should_reply
                route := conversation_output.route
                reply_mode := conversation_output.reply_mode
                typing_style := conversation_output.typing_style
                reply_text := conversation_output.reply_text
                reason := conversation_output.reason }
            router_invoked := true, conversation_invoked := true }

/-! ### Delivery (`src/lambda/post-to-slack/handler.py`) -/

/-- The JSON-object shape the posting Lambda reads out of `agentResult`
(each key optional, read with `.get` and a default). -/
structure AgentResultDict where
  should_reply : Option Bool := none
  reply_mode : Option String := none
  reply_text : Option String := none
  reason : Option String := none
deriving DecidableEq, Repr

/-- Embedding of `parse_agent_result`: a dict passes through; a string is
parsed as JSON via the external `jsonParse` (standing for `json.loads`
restricted to the object shape the handler reads, `none` on
`JSONDecodeError`), and on parse failure the raw string becomes the reply
text of an always-reply thread record. -/
def parse_agent_result (jsonParse : String → Option AgentResultDict) :
    Sum String AgentResultDict → AgentResultDict
  | .inr d => d
  | .inl s =>
    match jsonParse s with
    | some d => d
    | none =>
      { should_reply := some true, reply_mode := some "thread"
        reply_text := some s }

/-- One `chat_postMessage` call: channel, text, and the `thread_ts`
argument when attached. -/
structure PostCall where
  channel : String
  text : String
  thread_ts : Option String
deriving DecidableEq, Repr

/-- The input event of the posting Lambda: the keys it reads. -/
structure PostEvent where
  channel_id : Option String := none
  thread_ts : Option String := none
  agentResult : Option (Sum String AgentResultDict) := none
deriving DecidableEq, Repr

/-- The posting Lambda's observable outcome: the HTTP-ish status code of
the returned record, whether it reports a post, and the list of
`chat_postMessage` calls it made. -/
structure PostOutcome where
  statusCode : Nat
  posted : Bool
  calls : List PostCall
deriving DecidableEq, Repr

/-- Embedding of the posting Lambda's `lambda_handler`.  `post` is the
external Slack client: `.ok ts` a successful post, `.error e` a
`SlackApiError`.  The outcome records every post call made. -/
def lambda_handler (jsonParse : String → Option AgentResultDict)
    (post : PostCall → Except String String) (event : PostEvent) :
    PostOutcome :=
  let channel_id := event.channel_id.getD ""
  let thread_ts := event.thread_ts.getD ""
  let agent_result := event.agentResult.getD (.inr {})
  let result := parse_agent_result jsonParse agent_result
  let should_reply := result.should_reply.getD false
  let reply_mode := result.reply_mode.getD "thread"
  let reply_text := result.reply_text.getD ""
  if !should_reply then
    { statusCode := 200, posted := false, calls := [] }
  else if reply_text == "" then
    { statusCode := 200, posted := false, calls := [] }
  else
    let call : PostCall :=
      if reply_mode == "thread" && thread_ts != "" then
        { channel := channel_id, text := reply_text, thread_ts := some thread_ts }
      else
        { channel := channel_id, text := reply_text, thread_ts := none }
    match post call with
    | .ok _ => { statusCode := 200, posted := true, calls := [call] }
    | .error _ => { statusCode := 500, posted := false, calls := [call] }

/-! ### Helper lemmas -/

/-- Appending on the left of a `String` is injective. -/
theorem string_append_left_cancel {a b c : String} (h : a ++ b = a ++ c) :
    b = c := by
  have h2 := congrArg String.data h
  simp only [String.data_append] at h2
  exact String.ext (List.append_cancel_left h2)

/-- A string with a non-empty left part is non-empty. -/
theorem string_append_ne_empty (p m : String) (hp : p ≠ "") : p ++ m ≠ "" := by
  intro h
  apply hp
  have hl := congrArg String.length h
  rw [String.length_append] at hl
  exact String.ext (List.length_eq_zero.mp (Nat.eq_zero_of_add_eq_zero_right hl))

/-! ### Claim theorems -/

/-- C1: for a numeric timestamp, `verify_slack_signature` returns `true`
iff the timestamp is within 300 seconds of the current time and the
signature equals `"v0="` followed by the hex HMAC-SHA256 of
`"v0:" + timestamp + ":" + body` under the secret; a stale timestamp
yields `false` regardless of the signature, and changing the body so that
its MAC changes flips an accepting result to `false`. -/
theorem verify_signature_characterization
    (hmacHex : String → String → String) (now : Int)
    (secret timestamp body signature : String) (t : Int)
    (ht : pyInt timestamp = some t) :
    (verify_slack_signature hmacHex now secret timestamp body signature
        = some true ↔
      (now - t).natAbs ≤ 300 ∧
        signature = "v0=" ++ hmacHex secret ("v0:" ++ timestamp ++ ":" ++ body)) ∧
    (300 < (now - t).natAbs →
      verify_slack_signature hmacHex now secret timestamp body signature
        = some false) ∧
    (∀ body',
      hmacHex secret ("v0:" ++ timestamp ++ ":" ++ body')
          ≠ hmacHex secret ("v0:" ++ timestamp ++ ":" ++ body) →
      verify_slack_signature hmacHex now secret timestamp body signature
          = some true →
      verify_slack_signature hmacHex now secret timestamp body' signature
          = some false) := by
  unfold verify_slack_signature
  rw [ht]
  simp only []
  refine ⟨?_, ?_, ?_⟩
  · by_cases h : (now - t).natAbs > 60 * 5
    · simp only [if_pos h]
      constructor
      · intro hfalse
        exact absurd hfalse (by simp)
      · rintro ⟨h1, _⟩
        omega
    · simp only [if_neg h]
      constructor
      · intro heq
        have heq2 : ("v0=" ++ hmacHex secret ("v0:" ++ timestamp ++ ":" ++ body)
            == signature) = true := by
          exact Option.some_inj.mp heq
        refine ⟨by omega, ?_⟩
        exact (eq_of_beq heq2).symm
      · rintro ⟨_, h2⟩
        have : ("v0=" ++ hmacHex secret ("v0:" ++ timestamp ++ ":" ++ body)
            == signature) = true := beq_iff_eq.mpr h2.symm
        rw [this]
  · intro hstale
    rw [if_pos (by omega)]
  · intro body' hmac hacc
    by_cases h : (now - t).natAbs > 60 * 5
    · rw [if_pos h] at hacc
      exact absurd hacc (by simp)
    · rw [if_neg h] at hacc
      rw [if_neg h]
      have hsig : "v0=" ++ hmacHex secret ("v0:" ++ timestamp ++ ":" ++ body)
          = signature := eq_of_beq (Option.some_inj.mp hacc)
      have hne : ("v0=" ++ hmacHex secret ("v0:" ++ timestamp ++ ":" ++ body')
          == signature) = false := by
        rw [beq_eq_false_iff_ne]
        intro hcontra
        exact hmac (string_append_left_cancel (hcontra.trans hsig.symm))
      rw [hne]

/-- Witness for C1 at `now = 0`, `timestamp = "0"`, `body = "b"` and the
matching signature, with the MAC modelled by the identity on the message. -/
theorem verify_signature_characterization_witness :
    verify_slack_signature (fun _ m => m) 0 "s" "0" "b" "v0=v0:0:b"
      = some true :=
  ((verify_signature_characterization (fun _ m => m) 0 "s" "0" "b" "v0=v0:0:b"
      0 (by decide)).1).mpr ⟨by decide, by decide⟩

/-- C2 (code bug): on a non-numeric timestamp such as the empty string the
Python code raises `ValueError` from the unguarded `int(timestamp)`
(modelled as `none`) instead of returning `false`; the repository's own
documentation version (`docs/ingress_lambda.py`) wraps this in
`try/except ValueError` and returns `False`. -/
theorem verify_signature_raises_on_nonnumeric_timestamp
    (hmacHex : String → String → String) (now : Int)
    (secret timestamp body signature : String)
    (ht : pyInt timestamp = none) :
    verify_slack_signature hmacHex now secret timestamp body signature
      = none := by
  unfold verify_slack_signature
  rw [ht]

/-- Witness for C2's failing input: the empty timestamp string. -/
theorem verify_signature_raises_witness :
    verify_slack_signature (fun _ m => m) 0 "s" "" "b" "v0=x" = none :=
  verify_signature_raises_on_nonnumeric_timestamp (fun _ m => m) 0 "s" ""
    "b" "v0=x" (by decide)

/-- C3: when the extracted user text has length at most 3 and the message
is not marked as a mention, `run_orchestration` returns the pre-filter
ignore record and invokes neither the Router nor the Conversation agent,
whatever those agents would have done. -/
theorem prefilter_short_unmentioned_ignores
    (routerCall : AgentCall RouterResponse)
    (conversationCall : AgentCall ConversationResponse) (um : String)
    (hlen : (extract_text_only um).length ≤ 3)
    (hment : message_is_mentioned um = false) :
    run_orchestration routerCall conversationCall um =
      { result :=
          { should_reply := false, route := "ignore", reply_mode := "thread"
            typing_style := "none", reply_text := ""
            reason := "短いメッセージのため自動スキップ" }
        router_invoked := false, conversation_invoked := false } := by
  unfold run_orchestration
  rw [if_pos]
  rw [hment]
  simp [hlen]

/-- Witness for C3 on the two-character message `"ok"` with agents that
would reply if consulted. -/
theorem prefilter_short_unmentioned_ignores_witness :
    run_orchestration
      (.ok { should_reply := true, route := "full_reply", reason := "r" })
      (.ok { reply_text := "hi", reason := "c" })
      "User message: ok\n\nSlack context:\nis_mentioned: False" =
      { result :=
          { should_reply := false, route := "ignore", reply_mode := "thread"
            typing_style := "none", reply_text := ""
            reason := "短いメッセージのため自動スキップ" }
        router_invoked := false, conversation_invoked := false } :=
  prefilter_short_unmentioned_ignores
    (.ok { should_reply := true, route := "full_reply", reason := "r" })
    (.ok { reply_text := "hi", reason := "c" })
    "User message: ok\n\nSlack context:\nis_mentioned: False"
    (by decide) (by decide)

/-- C4: when the Router raises or returns no structured output,
`run_orchestration` yields `should_reply = false`, `route = "ignore"`,
empty reply text and a non-empty reason, and the Conversation agent is
never invoked (this also covers inputs short-circuited by the
pre-filter, where the Router itself is not reached). -/
theorem router_failure_yields_default_ignore
    (conversationCall : AgentCall ConversationResponse) (um msg : String) :
    ((run_orchestration (.raises msg) conversationCall um).result.should_reply
        = false ∧
      (run_orchestration (.raises msg) conversationCall um).result.route
        = "ignore" ∧
      (run_orchestration (.raises msg) conversationCall um).result.reply_text
        = "" ∧
      (run_orchestration (.raises msg) conversationCall um).result.reason
        ≠ "" ∧
      (run_orchestration (.raises msg) conversationCall um).conversation_invoked
        = false) ∧
    ((run_orchestration .noOutput conversationCall um).result.should_reply
        = false ∧
      (run_orchestration .noOutput conversationCall um).result.route
        = "ignore" ∧
      (run_orchestration .noOutput conversationCall um).result.reply_text
        = "" ∧
      (run_orchestration .noOutput conversationCall um).result.reason
        ≠ "" ∧
      (run_orchestration .noOutput conversationCall um).conversation_invoked
        = false) := by
  unfold run_orchestration
  by_cases hpre :
      ((extract_text_only um).length ≤ 3 && !message_is_mentioned um) = true
  · rw [if_pos hpre, if_pos hpre]
    refine ⟨⟨rfl, rfl, rfl, by decide, rfl⟩, rfl, rfl, rfl, by decide, rfl⟩
  · rw [if_neg hpre, if_neg hpre]
    refine ⟨⟨rfl, rfl, rfl, ?_, rfl⟩, rfl, rfl, rfl, ?_, rfl⟩
    · exact string_append_ne_empty "Router Agent error: " msg (by decide)
    · show ("Router failed to return structured output" : String) ≠ ""
      decide

/-- C5: when the Router decides `should_reply = true` with route
`simple_reply` or `full_reply` (and the message was not pre-filtered, so
the Router was actually consulted) and the Conversation agent then raises
or returns no structured output, `run_orchestration` keeps the Router's
`should_reply`, `route`, `reply_mode` and `typing_style`, with empty reply
text and a reason describing the Conversation failure; no exception is
propagated (the embedding is a total function). -/
theorem responder_failure_falls_back_to_router
    (r : RouterResponse) (um msg : String)
    (hpre : ((extract_text_only um).length ≤ 3
        && !message_is_mentioned um) = false)
    (hsr : r.should_reply = true)
    (hroute : r.route = "simple_reply" ∨ r.route = "full_reply") :
    run_orchestration (.ok r) (.raises msg) um =
      { result :=
          { should_reply := r.should_reply, route := r.route
            reply_mode := r.reply_mode, typing_style := r.typing_style
            reply_text := ""
            reason := "Conversation Agent error: " ++ msg }
        router_invoked := true, conversation_invoked := true } ∧
    run_orchestration (.ok r) .noOutput um =
      { result :=
          { should_reply := r.should_reply, route := r.route
            reply_mode := r.reply_mode, typing_style := r.typing_style
            reply_text := ""
            reason := "Conversation failed to return structured output" }
        router_invoked := true, conversation_invoked := true } := by
  have hig : (r.route == "ignore") = false := by
    rcases hroute with h | h <;> rw [h] <;> decide
  constructor <;>
    simp only [run_orchestration, hpre, hsr, hig, Bool.not_true,
      Bool.false_or, Bool.false_eq_true, if_false]

/-- Witness for C5: a Router full-reply decision on a long message,
Conversation raising `"boom"`. -/
theorem responder_failure_falls_back_to_router_witness :
    run_orchestration
      (.ok { should_reply := true, route := "full_reply", reason := "ok" })
      (.raises "boom") "User message: hello world" =
      { result :=
          { should_reply := true, route := "full_reply"
            reply_mode := "thread", typing_style := "none", reply_text := ""
            reason := "Conversation Agent error: " ++ "boom" }
        router_invoked := true, conversation_invoked := true } :=
  (responder_failure_falls_back_to_router
    { should_reply := true, route := "full_reply", reason := "ok" }
    "User message: hello world" "boom" (by decide) rfl (Or.inr rfl)).1

/-- C6 counterexample: a Router output with `should_reply = false` and
`route = "full_reply"` is passed through unchanged by
`run_orchestration`, so the returned record violates the invariant
`should_reply = false → route = "ignore"`. -/
theorem ignore_invariant_counterexample :
    (run_orchestration
      (.ok { should_reply := false, route := "full_reply", reason := "r" })
      .noOutput "User message: hello everyone").result.should_reply = false ∧
    (run_orchestration
      (.ok { should_reply := false, route := "full_reply", reason := "r" })
      .noOutput "User message: hello everyone").result.route ≠ "ignore" := by
  decide

/-- C6 (amended): every record `run_orchestration` returns satisfies
`should_reply = false → route = "ignore"` provided each structured agent
output it consumes satisfies that implication itself; a Router (or
Conversation) output with `should_reply = false` and another route is
passed through unchanged and violates it. -/
theorem ignore_invariant_holds_for_invariant_respecting_agents
    (routerCall : AgentCall RouterResponse)
    (conversationCall : AgentCall ConversationResponse) (um : String)
    (hr : ∀ r, routerCall = .ok r →
      r.should_reply = false → r.route = "ignore")
    (hc : ∀ c, conversationCall = .ok c →
      c.should_reply = false → c.route = "ignore") :
    (run_orchestration routerCall conversationCall um).result.should_reply
        = false →
    (run_orchestration routerCall conversationCall um).result.route
        = "ignore" := by
  simp only [run_orchestration]
  split
  · intro _
    rfl
  · cases routerCall with
    | raises msg => intro _; rfl
    | noOutput => intro _; rfl
    | ok r =>
      simp only []
      split
      · intro hsr
        exact hr r rfl hsr
      · next hb =>
        have hsr : r.should_reply = true := by
          cases h : r.should_reply
          · rw [h] at hb; simp at hb
          · rfl
        cases conversationCall with
        | raises msg =>
          intro hcontra
          rw [hsr] at hcontra
          exact Bool.noConfusion hcontra
        | noOutput =>
          intro hcontra
          rw [hsr] at hcontra
          exact Bool.noConfusion hcontra
        | ok c =>
          intro hsc
          exact hc c rfl hsc

/-- Witness for C6's amended theorem: an invariant-respecting Router that
declines with `route = "ignore"` yields an ignore-routed record. -/
theorem ignore_invariant_holds_witness :
    (run_orchestration
      (.ok { should_reply := false, route := "ignore", reason := "quiet" })
      .noOutput "User message: hello world").result.route = "ignore" :=
  ignore_invariant_holds_for_invariant_respecting_agents
    (.ok { should_reply := false, route := "ignore", reason := "quiet" })
    .noOutput "User message: hello world"
    (fun r h => by cases h; intro _; rfl)
    (fun c h => AgentCall.noConfusion h)
    (by decide)

/-- C7: the posting Lambda makes no `chat_postMessage` call and returns a
success outcome when the parsed result's `should_reply` is false, and
likewise when `should_reply` is true but the reply text is empty. -/
theorem delivery_skips_without_reply
    (jsonParse : String → Option AgentResultDict)
    (post : PostCall → Except String String) (event : PostEvent)
    (h : (parse_agent_result jsonParse
            (event.agentResult.getD (.inr {}))).should_reply.getD false
          = false ∨
        ((parse_agent_result jsonParse
            (event.agentResult.getD (.inr {}))).should_reply.getD false
          = true ∧
         (parse_agent_result jsonParse
            (event.agentResult.getD (.inr {}))).reply_text.getD "" = "")) :
    lambda_handler jsonParse post event =
      { statusCode := 200, posted := false, calls := [] } := by
  rcases h with h | ⟨h1, h2⟩
  · simp [lambda_handler, h]
  · simp [lambda_handler, h1, h2]

/-- Witness for C7 on a delivery input with `should_reply = false`. -/
theorem delivery_skips_without_reply_witness :
    lambda_handler (fun _ => none) (fun _ => .ok "1")
      { channel_id := some "C1", thread_ts := some "t"
        agentResult := some (.inr { should_reply := some false
                                    reason := some "no" }) } =
      { statusCode := 200, posted := false, calls := [] } :=
  delivery_skips_without_reply (fun _ => none) (fun _ => .ok "1")
    { channel_id := some "C1", thread_ts := some "t"
      agentResult := some (.inr { should_reply := some false
                                  reason := some "no" }) }
    (Or.inl (by decide))

/-- C8: whenever the posting call is reached (`should_reply` true,
non-empty reply text), exactly one post attempt is made, with the thread
id attached precisely when `reply_mode = "thread"` and the event carries a
non-empty `thread_ts`, and omitted otherwise. -/
theorem delivery_threading_and_single_post
    (jsonParse : String → Option AgentResultDict)
    (post : PostCall → Except String String) (event : PostEvent)
    (parsed : AgentResultDict)
    (hp : parse_agent_result jsonParse (event.agentResult.getD (.inr {}))
      = parsed)
    (hsr : parsed.should_reply.getD false = true)
    (htext : parsed.reply_text.getD "" ≠ "") :
    (lambda_handler jsonParse post event).calls.length = 1 ∧
    (parsed.reply_mode.getD "thread" = "thread" ∧
        event.thread_ts.getD "" ≠ "" →
      (lambda_handler jsonParse post event).calls =
        [{ channel := event.channel_id.getD ""
           text := parsed.reply_text.getD ""
           thread_ts := some (event.thread_ts.getD "") }]) ∧
    (¬(parsed.reply_mode.getD "thread" = "thread" ∧
        event.thread_ts.getD "" ≠ "") →
      (lambda_handler jsonParse post event).calls =
        [{ channel := event.channel_id.getD ""
           text := parsed.reply_text.getD ""
           thread_ts := none }]) := by
  have htb : (parsed.reply_text.getD "" == "") = false :=
    beq_eq_false_iff_ne.mpr htext
  simp only [lambda_handler, hp, hsr, Bool.not_true, Bool.false_eq_true,
    if_false, htb]
  by_cases hq : parsed.reply_mode.getD "thread" = "thread" ∧
      event.thread_ts.getD "" ≠ ""
  · have hbool : (parsed.reply_mode.getD "thread" == "thread"
        && event.thread_ts.getD "" != "") = true := by
      simp [hq.1, hq.2]
    simp only [hbool, eq_self_iff_true, if_true]
    cases hcall : post (PostCall.mk (event.channel_id.getD "")
        (parsed.reply_text.getD "") (some (event.thread_ts.getD ""))) <;>
      exact ⟨rfl, fun _ => rfl, fun hcon => absurd hq hcon⟩
  · have hbool : (parsed.reply_mode.getD "thread" == "thread"
        && event.thread_ts.getD "" != "") = false := by
      rcases not_and_or.mp hq with h | h
      · simp [beq_eq_false_iff_ne.mpr h]
      · simp [not_not.mp h]
    simp only [hbool, Bool.false_eq_true, if_false]
    cases hcall : post (PostCall.mk (event.channel_id.getD "")
        (parsed.reply_text.getD "") none) <;>
      exact ⟨rfl, fun hx => absurd hx hq, fun _ => rfl⟩

/-- Witness for C8: a thread-mode reply with a present thread id is posted
once with that thread id attached. -/
theorem delivery_threading_and_single_post_witness :
    (lambda_handler (fun _ => none) (fun _ => .ok "9")
      { channel_id := some "C1", thread_ts := some "123.45"
        agentResult := some (.inr { should_reply := some true
                                    reply_mode := some "thread"
                                    reply_text := some "hey" }) }).calls =
      [{ channel := "C1", text := "hey", thread_ts := some "123.45" }] :=
  (delivery_threading_and_single_post (fun _ => none) (fun _ => .ok "9")
    { channel_id := some "C1", thread_ts := some "123.45"
      agentResult := some (.inr { should_reply := some true
                                  reply_mode := some "thread"
                                  reply_text := some "hey" }) }
    { should_reply := some true, reply_mode := some "thread"
      reply_text := some "hey" }
    rfl (by decide) (by decide)).2.1 ⟨rfl, by decide⟩

/-- C9 counterexample: a plain message event carrying no `ts` and no
`thread_ts` key is accepted by the normalizer (processable, not a bot
message) yet yields an empty `thread_ts`, refuting the non-emptiness
invariant as stated. -/
theorem normalize_thread_ts_counterexample :
    is_processable_event
      { type := some "message", channel := some "C123", user := some "U1"
        text := some "hi" } = true ∧
    is_bot_message
      { type := some "message", channel := some "C123", user := some "U1"
        text := some "hi" } "B9" = false ∧
    (normalize_event
      { type := some "message", channel := some "C123", user := some "U1"
        text := some "hi" } "B9").thread_ts = "" :=
  ⟨rfl, rfl, rfl⟩

/-- C9 (amended): for every accepted event, `thread_ts` equals the
explicit `thread_ts` value when that key is present and otherwise the
event's own `ts` (empty when `ts` is absent); it is non-empty provided the
event's `ts` is non-empty when no explicit thread id is present and any
present `thread_ts` value is non-empty. -/
theorem normalize_thread_ts_amended
    (e : SlackEvent) (bot : String)
    (_hacc1 : is_processable_event e = true)
    (_hacc2 : is_bot_message e bot = false)
    (hts : e.thread_ts = none → e.ts.getD "" ≠ "")
    (hex : e.thread_ts ≠ some "") :
    (normalize_event e bot).thread_ts = e.thread_ts.getD (e.ts.getD "") ∧
    (normalize_event e bot).thread_ts ≠ "" := by
  refine ⟨rfl, ?_⟩
  show e.thread_ts.getD (e.ts.getD "") ≠ ""
  cases hth : e.thread_ts with
  | none => exact hts hth
  | some t =>
    show t ≠ ""
    intro h
    subst h
    exact hex hth

/-- Witness for C9's amended theorem on a message with `ts = "111.222"`
and no explicit thread id. -/
theorem normalize_thread_ts_amended_witness :
    (normalize_event
      { type := some "message", channel := some "C123", user := some "U1"
        text := some "hi", ts := some "111.222" } "B9").thread_ts
      = "111.222" ∧
    (normalize_event
      { type := some "message", channel := some "C123", user := some "U1"
        text := some "hi", ts := some "111.222" } "B9").thread_ts ≠ "" :=
  normalize_thread_ts_amended
    { type := some "message", channel := some "C123", user := some "U1"
      text := some "hi", ts := some "111.222" } "B9"
    (by decide) (by decide) (fun _ => by decide) (by decide)

/-- C10: a string `agentResult` that fails JSON parsing becomes a record
with `should_reply = true`, `reply_mode = "thread"` and the raw string as
the reply text, and (for a non-empty string) the posting Lambda posts that
raw string verbatim. -/
theorem unparsable_agent_result_posted_verbatim
    (jsonParse : String → Option AgentResultDict) (s : String)
    (hjson : jsonParse s = none) :
    parse_agent_result jsonParse (.inl s) =
      { should_reply := some true, reply_mode := some "thread"
        reply_text := some s, reason := none } ∧
    (∀ (post : PostCall → Except String String) (ch tt : String), s ≠ "" →
      (lambda_handler jsonParse post
        { channel_id := some ch, thread_ts := some tt
          agentResult := some (.inl s) }).calls.map PostCall.text = [s]) := by
  have hparse : parse_agent_result jsonParse (.inl s) =
      { should_reply := some true, reply_mode := some "thread"
        reply_text := some s, reason := none } := by
    simp only [parse_agent_result, hjson]
  refine ⟨hparse, fun post ch tt hs => ?_⟩
  have hsb : (s == "") = false := beq_eq_false_iff_ne.mpr hs
  simp only [lambda_handler, Option.getD_some, hparse, hsb, Bool.not_true,
    Bool.false_eq_true, if_false]
  cases htt : (tt != "") with
  | true =>
    have hred : (if (("thread" : String) == "thread" && true) = true then
        ({ channel := ch, text := s, thread_ts := some tt } : PostCall)
      else { channel := ch, text := s, thread_ts := none })
        = { channel := ch, text := s, thread_ts := some tt } := rfl
    rw [hred]
    cases post { channel := ch, text := s, thread_ts := some tt } <;> rfl
  | false =>
    have hred : (if (("thread" : String) == "thread" && false) = true then
        ({ channel := ch, text := s, thread_ts := some tt } : PostCall)
      else { channel := ch, text := s, thread_ts := none })
        = { channel := ch, text := s, thread_ts := none } := rfl
    rw [hred]
    cases post { channel := ch, text := s, thread_ts := none } <;> rfl

/-- Witness for C10: the non-JSON string `"oops"` is posted verbatim. -/
theorem unparsable_agent_result_posted_verbatim_witness :
    (lambda_handler (fun _ => none) (fun _ => .ok "9")
      { channel_id := some "C1", thread_ts := some "t1"
        agentResult := some (.inl "oops") }).calls.map PostCall.text
      = ["oops"] :=
  (unparsable_agent_result_posted_verbatim (fun _ => none) "oops" rfl).2
    (fun _ => .ok "9") "C1" "t1" (by decide)

end SlackAssistant
